import Mathlib

/-!
Verification of the fan-out/fan-in blog-generation pipeline.

The development shallowly embeds the deterministic core of the source:
the pydantic data model (schemas), the fan-out dispatcher (graph/fanout.py),
the reducer (nodes/reducer.py), the post-LLM processing of the research node
(nodes/research.py together with utils.iso_to_date), the recency-map
post-processing of the router node (nodes/router.py), the kind override of
the orchestrator node (nodes/orchestrator.py), and the fixed edges of the
graph builder (graph/builder.py).  External services (the language-model
calls and the web-search call) are opaque: their responses are passed to the
embedded node functions as explicit inputs.  Side effects (the file write in
the reducer) are reified in the returned value; a raised exception is
modelled as an `Except.error`.
-/

namespace Blog

/-- Section task, from `schemas/__init__.py` class `Task`. -/
structure Task where
  id : Int
  title : String
  goal : String
  bullets : List String
  target_words : Int
  tags : List String
  requires_research : Bool
  requires_citations : Bool
  requires_code : Bool
deriving DecidableEq

/-- The five blog kinds of the `Literal` type of `Plan.blog_kind`. -/
inductive BlogKind where
  | explainer
  | tutorial
  | news_roundup
  | comparison
  | system_design
deriving DecidableEq

/-- Blog outline, from `schemas/__init__.py` class `Plan`. -/
structure Plan where
  blog_title : String
  audience : String
  tone : String
  blog_kind : BlogKind
  constraints : List String
  tasks : List Task
deriving DecidableEq

/-- One normalized search result, from `schemas/__init__.py` class `EvidenceItem`. -/
structure EvidenceItem where
  title : String
  url : String
  published_at : Option String := none
  snippet : Option String := none
  source : Option String := none
deriving DecidableEq

/-- Container the structured-output LLM call returns to the research node. -/
structure EvidencePack where
  evidence : List EvidenceItem := []
deriving DecidableEq

/-- The three handling modes of the `Literal` type of `RouterDecision.mode`. -/
inductive Mode where
  | closed_book
  | hybrid
  | open_book
deriving DecidableEq

/-- String value of a mode, as stored into the shared state. -/
def modeStr : Mode → String
  | Mode.closed_book => "closed_book"
  | Mode.hybrid => "hybrid"
  | Mode.open_book => "open_book"

/-- Classifier response, from `schemas/__init__.py` class `RouterDecision`.
Note the schema has no recency field: the classifier cannot propose one. -/
structure RouterDecision where
  needs_research : Bool
  mode : Mode
  reason : String
  queries : List String := []
  max_results_per_query : Int := 5
deriving DecidableEq

/-- The shared graph state, from `schemas/__init__.py` class `State`.
The `sections` field collects `(task_id, markdown)` pairs appended by the
parallel workers in arrival order. -/
structure State where
  topic : String
  mode : String
  needs_research : Bool
  queries : List String
  evidence : List EvidenceItem
  plan : Option Plan
  as_of : String
  recency_days : Int
  sections : List (Int × String)
  final : String
deriving DecidableEq

/-- One raw (pre-normalization) search record, the fixed shape produced by
`utils.tavily_search`. Only presence or absence of records matters to the
deterministic part of the research node. -/
structure RawResult where
  title : String := ""
  url : String := ""
  snippet : String := ""
  published_at : Option String := none
  source : Option String := none
deriving DecidableEq

/-- Payload dict constructed for one worker in `graph/fanout.py`. -/
structure WorkerPayload where
  task : Task
  topic : String
  mode : String
  as_of : String
  recency_days : Int
  plan : Plan
  evidence : List EvidenceItem
deriving DecidableEq

/-- A `langgraph.types.Send` object: target node name plus payload. -/
structure Send where
  node : String
  payload : WorkerPayload
deriving DecidableEq

/-- Fan-out dispatcher, from `graph/fanout.py` function `fanout`.  The
failed `assert` on a missing plan is modelled as `Except.error`. -/
def fanout (state : State) : Except String (List Send) :=
  match state.plan with
  | none => Except.error "fanout called before plan was created."
  | some plan =>
      Except.ok (plan.tasks.map (fun task =>
        { node := "worker"
          payload :=
            { task := task
              topic := state.topic
              mode := state.mode
              as_of := state.as_of
              recency_days := state.recency_days
              plan := plan
              evidence := state.evidence } }))

/-- ASCII whitespace set of the Python `str.strip()` method. -/
def isPySpace (c : Char) : Bool :=
  c = ' ' || c = '\t' || c = '\n' || c = '\r' || c = '\x0b' || c = '\x0c'

/-- Python `str.strip()`: drop leading and trailing whitespace. -/
def pyStrip (s : String) : String :=
  String.mk (((s.data.dropWhile isPySpace).reverse.dropWhile isPySpace).reverse)

/-- Characters matched by the character class of the regex in
`nodes/reducer.py`: backslash, slash, colon, star, question mark, double
quote, less-than, greater-than, pipe. -/
def pathUnsafeChars : List Char := ['\\', '/', ':', '*', '?', '"', '<', '>', '|']

/-- Replacement of one character performed by the `re.sub` call in
`nodes/reducer.py`: a path-unsafe character becomes an underscore. -/
def sanitizeChar (c : Char) : Char :=
  if c ∈ pathUnsafeChars then '_' else c

/-- The `re.sub` call of `nodes/reducer.py` applied to a title: every
path-unsafe character is replaced by an underscore. -/
def sanitizeTitle (s : String) : String :=
  String.mk (s.data.map sanitizeChar)

/-- Relation used to sort the collected sections: compare first components
(the task ids), as the `key=lambda pair: pair[0]` of `sorted` does. -/
def sectionLE (a b : Int × String) : Prop := a.1 ≤ b.1

instance : DecidableRel sectionLE :=
  fun a b => inferInstanceAs (Decidable (a.1 ≤ b.1))

instance : IsTotal (Int × String) sectionLE :=
  ⟨fun a b => Int.le_total a.1 b.1⟩

instance : IsTrans (Int × String) sectionLE :=
  ⟨fun _ _ _ h1 h2 => le_trans h1 h2⟩

/-- Strict-key variant of `sectionLE`; on lists with pairwise distinct ids
the sorted order is also sorted for this relation. -/
def sectionLT (a b : Int × String) : Prop := a.1 < b.1

instance : IsAntisymm (Int × String) sectionLT :=
  ⟨fun _ _ h1 h2 => absurd h2 (lt_asymm h1)⟩

/-- The `sorted(state["sections"], key=lambda pair: pair[0])` call of
`nodes/reducer.py`, embedded as a stable sort by task id (Python `sorted`
is stable). -/
def sortSections (l : List (Int × String)) : List (Int × String) :=
  List.insertionSort sectionLE l

/-- Result of one reducer run: the value written to `state["final"]`, and
the name and content of the file written to disk. -/
structure ReducerOutput where
  final : String
  file_name : String
  file_content : String
deriving DecidableEq

/-- Reducer, from `nodes/reducer.py` function `reducer_node`.  The raised
`ValueError` on a missing plan is modelled as `Except.error`; the file write
is reified in the returned `ReducerOutput`.  Note the source computes two
intermediate `filename` values (lower-cased, truncated to 40) that are dead:
the final assignment rebuilds the name from `plan.blog_title` directly. -/
def reducer_node (state : State) : Except String ReducerOutput :=
  match state.plan with
  | none => Except.error "reducer_node called but state plan is None."
  | some plan =>
      let ordered_sections := (sortSections state.sections).map Prod.snd
      let body := pyStrip (String.intercalate "\n\n" ordered_sections)
      let final_md := "# " ++ plan.blog_title ++ "\n\n" ++ body ++ "\n"
      let filename := sanitizeTitle plan.blog_title ++ ".md"
      Except.ok { final := final_md, file_name := filename, file_content := final_md }

/-- Numeric value of a decimal digit character. -/
def digitVal (c : Char) : Int := Int.ofNat (c.toNat - '0'.toNat)

/-- Gregorian leap-year test. -/
def isLeapYear (y : Int) : Bool :=
  (y % 4 = 0 && y % 100 ≠ 0) || y % 400 = 0

/-- Number of days of a month of the proleptic Gregorian calendar. -/
def daysInMonth (y m : Int) : Int :=
  if m = 2 then (if isLeapYear y then 29 else 28)
  else if m = 4 ∨ m = 6 ∨ m = 9 ∨ m = 11 then 30
  else 31

/-- Days since 1970-01-01 of a Gregorian date (the days-from-civil
algorithm); Python `date` comparison and `timedelta(days=n)` subtraction
agree with integer comparison and subtraction on this encoding. -/
def toRataDie (y m d : Int) : Int :=
  let y2 := if m ≤ 2 then y - 1 else y
  let era := (if 0 ≤ y2 then y2 else y2 - 399) / 400
  let yoe := y2 - era * 400
  let doy := (153 * (m + (if 2 < m then -3 else 9)) + 2) / 5 + d - 1
  let doe := yoe * 365 + yoe / 4 - yoe / 100 + doy
  era * 146097 + doe - 719468

/-- Parse of a canonical ISO `YYYY-MM-DD` string into its day number, the
shape `date.fromisoformat` accepts for the dates of this pipeline; `none`
for a malformed string. -/
def parseIsoDate (s : String) : Option Int :=
  match s.data with
  | [y1, y2, y3, y4, s1, m1, m2, s2, d1, d2] =>
      if y1.isDigit && y2.isDigit && y3.isDigit && y4.isDigit && (s1 == '-') &&
          m1.isDigit && m2.isDigit && (s2 == '-') && d1.isDigit && d2.isDigit then
        let y := 1000 * digitVal y1 + 100 * digitVal y2 + 10 * digitVal y3 + digitVal y4
        let m := 10 * digitVal m1 + digitVal m2
        let d := 10 * digitVal d1 + digitVal d2
        if 1 ≤ m ∧ m ≤ 12 ∧ 1 ≤ d ∧ d ≤ daysInMonth y m then
          some (toRataDie y m d)
        else none
      else none
  | _ => none

/-- Date helper from `utils/__init__.py` function `iso_to_date`: `none` for
a missing or empty string, else parse the first 10 characters, `none` on
failure. -/
def iso_to_date (s : Option String) : Option Int :=
  match s with
  | none => none
  | some str => if str = "" then none else parseIsoDate (String.mk (str.data.take 10))

/-- One step of the dict comprehension of `nodes/research.py`: inserting an
item into an insertion-ordered url-keyed dict.  An existing key keeps its
position and takes the new value; a new key is appended. -/
def dedupInsert (acc : List EvidenceItem) (e : EvidenceItem) : List EvidenceItem :=
  if acc.any (fun x => x.url == e.url) then
    acc.map (fun x => if x.url == e.url then e else x)
  else acc ++ [e]

/-- Deduplication by url of `nodes/research.py`: items with an empty url are
discarded, then a url-keyed dict is built (last write wins) and its values
are listed in first-insertion order. -/
def dedupByUrl (items : List EvidenceItem) : List EvidenceItem :=
  (items.filter (fun e => e.url ≠ "")).foldl dedupInsert []

/-- Predicate of the open-book date filter of `nodes/research.py`: keep an
item exactly when its published date parses and is on or after the cutoff. -/
def freshItem (cutoff : Int) (item : EvidenceItem) : Bool :=
  match iso_to_date item.published_at with
  | some d => cutoff ≤ d
  | none => false

/-- Hard recency filter of `nodes/research.py` step three. -/
def recencyFilter (cutoff : Int) (evidence : List EvidenceItem) : List EvidenceItem :=
  evidence.filter (freshItem cutoff)

/-- Research node, from `nodes/research.py` function `research_node`.  The
external collaborators are opaque inputs: `raw_results` stands for the
concatenated search records of the executed queries, `pack` for the
structured response of the normalization LLM call (consulted only when raw
results exist).  A `date.fromisoformat` failure on `as_of` is modelled as
`Except.error`. -/
def research_node (raw_results : List RawResult) (pack : EvidencePack)
    (state : State) : Except String (List EvidenceItem) :=
  if raw_results.isEmpty then Except.ok []
  else
    let evidence := dedupByUrl pack.evidence
    if state.mode = "open_book" then
      match parseIsoDate state.as_of with
      | none => Except.error ("Invalid isoformat string: " ++ state.as_of)
      | some as_of_rd =>
          Except.ok (recencyFilter (as_of_rd - state.recency_days) evidence)
    else
      Except.ok evidence

/-- The `recency_map.get(decision.mode, 3650)` lookup of `nodes/router.py`. -/
def recencyMapGet (mode : String) : Int :=
  if mode = "open_book" then 7
  else if mode = "hybrid" then 45
  else if mode = "closed_book" then 3650
  else 3650

/-- State fields written by the router node. -/
structure RouterOutput where
  needs_research : Bool
  mode : String
  queries : List String
  recency_days : Int
deriving DecidableEq

/-- Router node, from `nodes/router.py` function `router_node`.  The
classifier LLM call is an opaque input `decision`; the node recomputes
`recency_days` from the returned mode via the fixed map. -/
def router_node (decision : RouterDecision) : RouterOutput :=
  { needs_research := decision.needs_research
    mode := modeStr decision.mode
    queries := decision.queries
    recency_days := recencyMapGet (modeStr decision.mode) }

/-- Orchestrator node, from `nodes/orchestrator.py` function
`orchestrator_node`.  The structured-generation call is an opaque input
`generated`; the safety net after the call forces `blog_kind` to
`news_roundup` in open-book mode. -/
def orchestrator_node (mode : String) (generated : Plan) : Plan :=
  if mode = "open_book" then { generated with blog_kind := BlogKind.news_roundup }
  else generated

/-- Fixed (unconditional) edges registered by `graph/builder.py` function
`build_graph`. -/
def fixedEdges : List (String × String) :=
  [("START", "router"), ("research", "orchestrator"),
   ("reducer", "END"), ("worker", "reducer")]

/-- Conditional-edge selector of `nodes/router.py` function `route_next`. -/
def route_next (state : State) : String :=
  if state.needs_research then "research" else "orchestrator"

/-- Formalisation of the words of claim C10, for comparison with the code:
the title with the characters invalid in file names stripped out
(removed, not replaced). -/
def stripUnsafeTitle (s : String) : String :=
  String.mk (s.data.filter (fun c => !(pathUnsafeChars.contains c)))

/-- Task builder for concrete test inputs. -/
def mkTask (i : Int) (t : String) : Task :=
  { id := i, title := t, goal := "g", bullets := ["b1", "b2", "b3"],
    target_words := 300, tags := [], requires_research := false,
    requires_citations := false, requires_code := false }

/-- Plan builder for concrete test inputs. -/
def mkPlan (title : String) (tasks : List Task) : Plan :=
  { blog_title := title, audience := "devs", tone := "clear",
    blog_kind := BlogKind.explainer, constraints := [], tasks := tasks }

/-- Base state for concrete test inputs; its plan is absent. -/
def baseState : State :=
  { topic := "t", mode := "closed_book", needs_research := false, queries := [],
    evidence := [], plan := none, as_of := "2026-02-19", recency_days := 3650,
    sections := [], final := "" }

theorem sortSections_perm (l : List (Int × String)) : List.Perm (sortSections l) l :=
  List.perm_insertionSort sectionLE l

theorem sortSections_sorted (l : List (Int × String)) :
    List.Sorted sectionLE (sortSections l) :=
  List.sorted_insertionSort sectionLE l

theorem sorted_sectionLT_of_nodup {l : List (Int × String)}
    (hs : List.Sorted sectionLE l) (hn : (l.map Prod.fst).Nodup) :
    List.Sorted sectionLT l := by
  rw [List.Nodup, List.pairwise_map] at hn
  exact (hs.and hn).imp (fun h => lt_of_le_of_ne h.1 h.2)

theorem sortSections_eq_of_perm {l₁ l₂ : List (Int × String)} (hp : List.Perm l₁ l₂)
    (hn : (l₁.map Prod.fst).Nodup) : sortSections l₁ = sortSections l₂ := by
  have hn₂ : (l₂.map Prod.fst).Nodup := ((hp.map Prod.fst).nodup_iff).mp hn
  have hperm : List.Perm (sortSections l₁) (sortSections l₂) :=
    (sortSections_perm l₁).trans (hp.trans (sortSections_perm l₂).symm)
  exact List.eq_of_perm_of_sorted hperm
    (sorted_sectionLT_of_nodup (sortSections_sorted l₁)
      (((sortSections_perm l₁).map Prod.fst).nodup_iff.mpr hn))
    (sorted_sectionLT_of_nodup (sortSections_sorted l₂)
      (((sortSections_perm l₂).map Prod.fst).nodup_iff.mpr hn₂))

def c1xPlan : Plan := mkPlan "T" [mkTask 1 "s1"]

def c1xState : State :=
  { baseState with plan := some c1xPlan, sections := [(1, " a ")] }

/-- C1 counterexample: the claim states the body equals the content values
sorted by id joined with a blank-line separator, but the code additionally
strips leading and trailing whitespace of the joined body: for the single
collected pair (1, " a ") the produced document is "# T\n\na\n", not the
claimed heading plus the joined body " a ". -/
theorem C1_strip_counterexample :
    (reducer_node c1xState).map ReducerOutput.final = Except.ok "# T\n\na\n" ∧
    "# T\n\na\n" ≠ "# " ++ c1xPlan.blog_title ++ "\n\n" ++
      String.intercalate "\n\n" ((sortSections c1xState.sections).map Prod.snd) ++ "\n" :=
  ⟨rfl, by decide⟩

/-- C1 (amended): for a plan with pairwise-distinct task ids and a collected
list holding exactly one pair per task, the reducer output is independent of
the arrival order of the pairs, and the final document is the top-level
heading built from the blog title followed by the content values sorted by
id ascending, joined with a blank-line separator and stripped of leading
and trailing whitespace. -/
theorem C1_reduce_order_invariance (state : State) (p : Plan)
    (s' : List (Int × String))
    (hp : state.plan = some p)
    (hids : (p.tasks.map Task.id).Nodup)
    (hcover : List.Perm (state.sections.map Prod.fst) (p.tasks.map Task.id))
    (hperm : List.Perm state.sections s') :
    reducer_node { state with sections := s' } = reducer_node state ∧
    reducer_node state = Except.ok
      { final := "# " ++ p.blog_title ++ "\n\n" ++
          pyStrip (String.intercalate "\n\n"
            ((sortSections state.sections).map Prod.snd)) ++ "\n"
        file_name := sanitizeTitle p.blog_title ++ ".md"
        file_content := "# " ++ p.blog_title ++ "\n\n" ++
          pyStrip (String.intercalate "\n\n"
            ((sortSections state.sections).map Prod.snd)) ++ "\n" } := by
  have hn : (state.sections.map Prod.fst).Nodup := hcover.nodup_iff.mpr hids
  have hsort : sortSections s' = sortSections state.sections :=
    (sortSections_eq_of_perm hperm hn).symm
  obtain ⟨t, m, nr, q, ev, plan, a, rd, sec, f⟩ := state
  subst hp
  constructor
  · simp only [reducer_node, hsort]
  · rfl

def c1Plan : Plan := mkPlan "T" [mkTask 1 "s1", mkTask 2 "s2", mkTask 3 "s3"]

def c1State : State :=
  { baseState with plan := some c1Plan, sections := [(3, "c"), (1, "a"), (2, "b")] }

theorem C1_reduce_order_invariance_witness :
    reducer_node { c1State with sections := [(1, "a"), (2, "b"), (3, "c")] } =
      reducer_node c1State ∧
    reducer_node c1State = Except.ok
      { final := "# T\n\na\n\nb\n\nc\n", file_name := "T.md",
        file_content := "# T\n\na\n\nb\n\nc\n" } := by
  have h := C1_reduce_order_invariance c1State c1Plan [(1, "a"), (2, "b"), (3, "c")]
    rfl (by decide) (by decide) (by decide)
  exact ⟨h.1, h.2.trans (by rfl)⟩

/-- C2: for every state whose plan is present, the fan-out dispatcher
returns exactly one work unit per task, in plan order, each a Send to the
worker node whose payload carries that task together with copies of topic,
mode, as-of date, recency window, the full plan and the evidence list; when
the task ids are pairwise distinct the dispatched units carry pairwise
distinct task ids. -/
theorem C2_fanout_one_unit_per_task (state : State) (p : Plan)
    (hp : state.plan = some p) :
    ∃ sends : List Send,
      fanout state = Except.ok sends ∧
      sends.length = p.tasks.length ∧
      sends.map (fun s => s.payload.task) = p.tasks ∧
      (∀ s ∈ sends, s.node = "worker" ∧ s.payload.topic = state.topic ∧
        s.payload.mode = state.mode ∧ s.payload.as_of = state.as_of ∧
        s.payload.recency_days = state.recency_days ∧ s.payload.plan = p ∧
        s.payload.evidence = state.evidence) ∧
      ((p.tasks.map Task.id).Nodup →
        (sends.map (fun s => s.payload.task.id)).Nodup) := by
  obtain ⟨t, m, nr, q, ev, plan, a, rd, sec, f⟩ := state
  subst hp
  refine ⟨_, rfl, by simp, ?_, ?_, ?_⟩
  · rw [List.map_map]
    exact List.map_id p.tasks
  · intro s hs
    obtain ⟨task, _, rfl⟩ := List.mem_map.mp hs
    exact ⟨rfl, rfl, rfl, rfl, rfl, rfl, rfl⟩
  · intro h
    have hmap : ((p.tasks.map (fun task =>
        ({ node := "worker"
           payload := { task := task, topic := t, mode := m, as_of := a,
                        recency_days := rd, plan := p, evidence := ev } } : Send))).map
          (fun s => s.payload.task.id)) = p.tasks.map Task.id := by
      rw [List.map_map]
      exact rfl
    rwa [hmap]

def c2Plan : Plan := mkPlan "T" [mkTask 1 "s1", mkTask 2 "s2"]

def c2State : State := { baseState with plan := some c2Plan }

theorem C2_fanout_one_unit_per_task_witness :
    ∃ sends : List Send, fanout c2State = Except.ok sends ∧
      sends.length = 2 ∧ sends.map (fun s => s.payload.task) = c2Plan.tasks ∧
      (sends.map (fun s => s.payload.task.id)).Nodup := by
  obtain ⟨sends, h1, h2, h3, _, h5⟩ := C2_fanout_one_unit_per_task c2State c2Plan rfl
  exact ⟨sends, h1, h2.trans (by decide), h3, h5 (by decide)⟩

/-- C3: invoking the fan-out dispatcher or the reducer on a state whose plan
is absent fails fast with an error; in particular the reducer never returns
an assembled document in that case, so no final string and no file write is
produced. -/
theorem C3_null_plan_fails_fast (state : State) (h : state.plan = none) :
    fanout state = Except.error "fanout called before plan was created." ∧
    reducer_node state = Except.error "reducer_node called but state plan is None." ∧
    ∀ out : ReducerOutput, reducer_node state ≠ Except.ok out := by
  obtain ⟨t, m, nr, q, ev, plan, a, rd, sec, f⟩ := state
  subst h
  exact ⟨rfl, rfl, fun out hout => Except.noConfusion hout⟩

theorem C3_null_plan_fails_fast_witness :
    fanout baseState = Except.error "fanout called before plan was created." ∧
    reducer_node baseState =
      Except.error "reducer_node called but state plan is None." :=
  ⟨(C3_null_plan_fails_fast baseState rfl).1,
   (C3_null_plan_fails_fast baseState rfl).2.1⟩

theorem freshItem_eq_true_iff (cutoff : Int) (item : EvidenceItem) :
    freshItem cutoff item = true ↔
      ∃ d, iso_to_date item.published_at = some d ∧ cutoff ≤ d := by
  unfold freshItem
  cases h : iso_to_date item.published_at <;> simp [h]

/-- C4: the research node applies the hard recency filter exactly when the
mode is open_book: a deduplicated item is kept if and only if its published
date parses and lies on or after the as-of date minus the recency window;
items with an absent or unparseable date are dropped.  Under hybrid or
closed_book the deduplicated evidence passes through unchanged, null dates
included. -/
theorem C4_open_book_hard_filter (raw : List RawResult) (pack : EvidencePack)
    (state : State) (d : Int) (hraw : raw ≠ []) :
    (state.mode = "open_book" → parseIsoDate state.as_of = some d →
      research_node raw pack state =
        Except.ok (recencyFilter (d - state.recency_days) (dedupByUrl pack.evidence)) ∧
      ∀ item : EvidenceItem,
        item ∈ recencyFilter (d - state.recency_days) (dedupByUrl pack.evidence) ↔
          item ∈ dedupByUrl pack.evidence ∧
            ∃ dd, iso_to_date item.published_at = some dd ∧
              d - state.recency_days ≤ dd) ∧
    ((state.mode = "hybrid" ∨ state.mode = "closed_book") →
      research_node raw pack state = Except.ok (dedupByUrl pack.evidence)) := by
  have hraw2 : raw.isEmpty = false := by
    cases raw with
    | nil => exact absurd rfl hraw
    | cons x l => rfl
  constructor
  · intro hm hd
    constructor
    · simp [research_node, hraw2, hm, hd]
    · intro item
      rw [recencyFilter, List.mem_filter, freshItem_eq_true_iff]
  · intro hm
    have hne : ¬ state.mode = "open_book" := by
      rcases hm with h | h <;> rw [h] <;> decide
    simp [research_node, hraw2, hne]

def c4item1 : EvidenceItem := ⟨"fresh", "u1", some "2026-02-18", none, none⟩

def c4item2 : EvidenceItem := ⟨"stale", "u2", some "2026-02-10", none, none⟩

def c4item3 : EvidenceItem := ⟨"undated", "u3", none, none, none⟩

def c4pack : EvidencePack := ⟨[c4item1, c4item2, c4item3]⟩

def c4raw : List RawResult := [{ title := "r", url := "u" }]

def c4state : State := { baseState with mode := "open_book", recency_days := 7 }

theorem C4_open_book_hard_filter_witness :
    research_node c4raw c4pack c4state = Except.ok [c4item1] ∧
    research_node c4raw c4pack { c4state with mode := "hybrid" } =
      Except.ok [c4item1, c4item2, c4item3] := by
  have h := C4_open_book_hard_filter c4raw c4pack c4state (toRataDie 2026 2 19)
    (by exact List.cons_ne_nil _ _)
  have h2 := C4_open_book_hard_filter c4raw c4pack { c4state with mode := "hybrid" }
    (toRataDie 2026 2 19) (by exact List.cons_ne_nil _ _)
  exact ⟨((h.1 rfl (by decide)).1).trans (by rfl), (h2.2 (Or.inl rfl)).trans (by rfl)⟩

def c5pack : EvidencePack :=
  ⟨[⟨"X", "a", none, none, none⟩, ⟨"Y", "a", none, none, none⟩,
    ⟨"Z", "b", none, none, none⟩]⟩

def c5raw : List RawResult := [{ title := "r", url := "u" }]

/-- C5: the research node deduplicates the normalized evidence by url with
last-write-wins semantics and discards items with an empty url: for the
input items with urls a, a, b and titles X, Y, Z the deduplicated result has
exactly the two items keyed a and b, the one for a carrying title Y; an
item whose url is empty is dropped. -/
theorem C5_dedup_last_write_wins :
    research_node c5raw c5pack baseState =
      Except.ok [⟨"Y", "a", none, none, none⟩, ⟨"Z", "b", none, none, none⟩] ∧
    (dedupByUrl c5pack.evidence).length = 2 ∧
    (∀ e ∈ dedupByUrl c5pack.evidence, e.url = "a" → e.title = "Y") ∧
    dedupByUrl [⟨"W", "", none, none, none⟩] = [] := by
  refine ⟨rfl, rfl, ?_, rfl⟩
  decide

theorem C5_dedup_last_write_wins_witness :
    (dedupByUrl c5pack.evidence).length = 2 :=
  (C5_dedup_last_write_wins).2.1

/-- C6: the router node sets the recency window deterministically from the
classifier mode by the fixed map open_book to 7, hybrid to 45, closed_book
to 3650; two classifier decisions agreeing on the mode always yield the
same recency window, whatever their other fields propose (the decision
schema has no recency field at all). -/
theorem C6_recency_days_fixed_map (decision : RouterDecision) :
    (router_node decision).recency_days =
      (match decision.mode with
        | Mode.open_book => 7
        | Mode.hybrid => 45
        | Mode.closed_book => 3650) ∧
    ∀ d2 : RouterDecision, d2.mode = decision.mode →
      (router_node d2).recency_days = (router_node decision).recency_days := by
  obtain ⟨nr, mode, r, q, mx⟩ := decision
  constructor
  · cases mode <;> rfl
  · intro d2 h
    obtain ⟨nr2, mode2, r2, q2, mx2⟩ := d2
    change mode2 = mode at h
    subst h
    rfl

theorem C6_recency_days_fixed_map_witness :
    (router_node ⟨true, Mode.open_book, "r", ["q1"], 99⟩).recency_days = 7 ∧
    (router_node ⟨false, Mode.open_book, "other", [], 3⟩).recency_days =
      (router_node ⟨true, Mode.open_book, "r", ["q1"], 99⟩).recency_days := by
  have h := C6_recency_days_fixed_map ⟨true, Mode.open_book, "r", ["q1"], 99⟩
  exact ⟨h.1.trans (by rfl),
    h.2 ⟨false, Mode.open_book, "other", [], 3⟩ rfl⟩

/-- C7: for every run in open_book mode the orchestrator forces the plan
kind to news_roundup after the structured-generation call, whatever kind
that call returned; for any other mode the generated plan is kept
unchanged. -/
theorem C7_open_book_kind_override (mode : String) (generated : Plan) :
    (mode = "open_book" →
      (orchestrator_node mode generated).blog_kind = BlogKind.news_roundup) ∧
    (mode ≠ "open_book" → orchestrator_node mode generated = generated) := by
  constructor
  · intro h
    simp [orchestrator_node, h]
  · intro h
    simp [orchestrator_node, h]

def c7gen : Plan := { mkPlan "T" [mkTask 1 "s1"] with blog_kind := BlogKind.tutorial }

theorem C7_open_book_kind_override_witness :
    (orchestrator_node "open_book" c7gen).blog_kind = BlogKind.news_roundup ∧
    orchestrator_node "hybrid" c7gen = c7gen :=
  ⟨(C7_open_book_kind_override "open_book" c7gen).1 rfl,
   (C7_open_book_kind_override "hybrid" c7gen).2 (by decide)⟩

/-- C8: when the executed queries return zero raw results the research node
returns empty evidence without error, independently of whatever the
normalization call would answer (it is never consulted), and the edge from
the research node to the orchestrator is one of the unconditional fixed
edges of the graph, so the pipeline still reaches planning. -/
theorem C8_empty_search_not_fatal (pack : EvidencePack) (state : State) :
    research_node [] pack state = Except.ok [] ∧
    ("research", "orchestrator") ∈ fixedEdges :=
  ⟨rfl, by decide⟩

def c8pack : EvidencePack := ⟨[⟨"T", "u", some "bogus-date!", none, none⟩]⟩

theorem C8_empty_search_not_fatal_witness :
    research_node [] c8pack baseState = Except.ok [] :=
  (C8_empty_search_not_fatal c8pack baseState).1

/-- C9: when the collected sections omit the pair of one or more planned
task ids, the reducer still succeeds with no error, assembling the document
from only the pairs that are present. -/
theorem C9_missing_section_silent (state : State) (p : Plan)
    (hp : state.plan = some p)
    (hmiss : ∃ t ∈ p.tasks, t.id ∉ state.sections.map Prod.fst) :
    ∃ out : ReducerOutput, reducer_node state = Except.ok out ∧
      out.final = "# " ++ p.blog_title ++ "\n\n" ++
        pyStrip (String.intercalate "\n\n"
          ((sortSections state.sections).map Prod.snd)) ++ "\n" := by
  obtain ⟨t, m, nr, q, ev, plan, a, rd, sec, f⟩ := state
  subst hp
  exact ⟨_, rfl, rfl⟩

def c9Plan : Plan := mkPlan "T" [mkTask 1 "s1", mkTask 2 "s2", mkTask 3 "s3"]

def c9State : State :=
  { baseState with plan := some c9Plan, sections := [(1, "a"), (3, "c")] }

theorem C9_missing_section_silent_witness :
    ∃ out : ReducerOutput, reducer_node c9State = Except.ok out ∧
      out.final = "# T\n\na\n\nc\n" := by
  obtain ⟨out, h1, h2⟩ := C9_missing_section_silent c9State c9Plan rfl (by decide)
  exact ⟨out, h1, h2.trans (by rfl)⟩

def c10xPlan : Plan := mkPlan "a:b" [mkTask 1 "s1"]

def c10xState : State :=
  { baseState with plan := some c10xPlan, sections := [(1, "x")] }

/-- C10 counterexample: the code replaces each path-unsafe character of the
title with an underscore rather than stripping it out: for the title "a:b"
the persisted file name is "a_b.md", not the name with the colon removed. -/
theorem C10_strip_counterexample :
    (reducer_node c10xState).map ReducerOutput.file_name = Except.ok "a_b.md" ∧
    "a_b.md" ≠ stripUnsafeTitle c10xPlan.blog_title ++ ".md" :=
  ⟨rfl, by decide⟩

theorem sanitizeChar_not_unsafe (c : Char) : sanitizeChar c ∉ pathUnsafeChars := by
  unfold sanitizeChar
  split
  · decide
  · assumption

/-- C10 (amended): for every present plan the reducer persists the document
under a file name derived from the blog title with each character invalid
in file names replaced by an underscore, suffixed ".md"; consequently the
persisted name contains none of the path-unsafe characters. -/
theorem C10_sanitized_file_name (state : State) (p : Plan)
    (hp : state.plan = some p) :
    ∃ out : ReducerOutput, reducer_node state = Except.ok out ∧
      out.file_name = sanitizeTitle p.blog_title ++ ".md" ∧
      ∀ c ∈ out.file_name.data, c ∉ pathUnsafeChars := by
  obtain ⟨t, m, nr, q, ev, plan, a, rd, sec, f⟩ := state
  subst hp
  refine ⟨_, rfl, rfl, ?_⟩
  intro c hc
  have hc2 : c ∈ (p.blog_title.data.map sanitizeChar) ++ ['.', 'm', 'd'] := hc
  rcases List.mem_append.mp hc2 with h | h
  · obtain ⟨c2, _, rfl⟩ := List.mem_map.mp h
    exact sanitizeChar_not_unsafe c2
  · simp only [List.mem_cons, List.not_mem_nil, or_false] at h
    rcases h with rfl | rfl | rfl <;> decide

def c10Plan : Plan := mkPlan "a:b?" [mkTask 1 "s1"]

def c10State : State :=
  { baseState with plan := some c10Plan, sections := [(1, "x")] }

theorem C10_sanitized_file_name_witness :
    ∃ out : ReducerOutput, reducer_node c10State = Except.ok out ∧
      out.file_name = "a_b_.md" ∧ ∀ c ∈ out.file_name.data, c ∉ pathUnsafeChars := by
  obtain ⟨out, h1, h2, h3⟩ := C10_sanitized_file_name c10State c10Plan rfl
  exact ⟨out, h1, h2.trans (by decide), h3⟩

end Blog
